import Mathlib

/-!
Verification of the protocol version / feature-gate registry
(core/primitives-core/src/version.rs).

The Rust source is embedded shallowly:
- the `ProtocolFeature` enum becomes an inductive type with the same
  constructors in the same declaration order;
- `ProtocolFeature::protocol_version` becomes a total function mirroring
  the Rust match arm by arm (the type `ProtocolVersion` is `u32` in the
  source; all values here are far below 2^32, and the only arithmetic is
  the subtraction 70 - 3, which cannot underflow, so `Nat` is faithful);
- the `#[cfg(feature = ...)]` attributes on five enum variants and the
  two channel flags tested by `cfg!` in `PROTOCOL_VERSION` become a
  `BuildConfig` record of booleans, and per-variant availability becomes
  the function `ProtocolFeature.available`;
- each expansion shape of the `checked_feature!` macro becomes a
  function whose cfg-test is the corresponding `BuildConfig` boolean.
-/

/-- Alias for the Rust type `ProtocolVersion = u32`. -/
abbrev ProtocolVersion := Nat

/-- Build-time configuration: the cargo feature flags consulted by
`version.rs`, via `#[cfg(feature = ...)]` on enum variants and via
`cfg!(feature = ...)` in the definition of `PROTOCOL_VERSION`. -/
structure BuildConfig where
  protocol_feature_fix_staking_threshold : Bool
  protocol_feature_fix_contract_loading_cost : Bool
  protocol_feature_reject_blocks_with_outdated_protocol_version : Bool
  protocol_feature_nonrefundable_transfer_nep491 : Bool
  protocol_feature_bls12381 : Bool
  statelessnet_protocol : Bool
  nightly_protocol : Bool
deriving DecidableEq

/-- The feature catalog, with constructors in the exact declaration order
of the Rust enum `ProtocolFeature`. Five variants are guarded by
`#[cfg(feature = ...)]` in the source; here they are always representable
and their availability in a given build is `ProtocolFeature.available`. -/
inductive ProtocolFeature where
  | ImplicitAccountCreation
  | RectifyInflation
  | AccessKeyNonceRange
  | FixApplyChunks
  | LowerStorageCost
  | DeleteActionRestriction
  | AccountVersions
  | TransactionSizeLimit
  | FixStorageUsage
  | CapMaxGasPrice
  | CountRefundReceiptsInGasLimit
  | MathExtension
  | RestoreReceiptsAfterFixApplyChunks
  | Wasmer2
  | SimpleNightshade
  | LowerDataReceiptAndEcrecoverBaseCost
  | LowerRegularOpCost
  | LowerRegularOpCost2
  | LimitContractFunctionsNumber
  | BlockHeaderV3
  | AliasValidatorSelectionAlgorithm
  | SynchronizeBlockChunkProduction
  | CorrectStackLimit
  | AccessKeyNonceForImplicitAccounts
  | IncreaseDeploymentCost
  | FunctionCallWeight
  | LimitContractLocals
  | ChunkNodesCache
  | LowerStorageKeyLimit
  | AltBn128
  | ChunkOnlyProducers
  | MaxKickoutStake
  | AccountIdInFunctionCallPermission
  | ZeroBalanceAccount
  | DelegateAction
  | Ed25519Verify
  | ComputeCosts
  | DecreaseFunctionCallBaseCost
  | FlatStorageReads
  | PreparationV2
  | NearVmRuntime
  | BlockHeaderV4
  | SimpleNightshadeV2
  | SimpleNightshadeV3
  | FixStakingThreshold
  | FixContractLoadingCost
  | RejectBlocksWithOutdatedProtocolVersions
  | NonrefundableStorage
  | BLS12381
  | RestrictTla
  | TestnetFewerBlockProducers
  | StatelessValidationV0
  | EthImplicitAccounts
  | YieldExecution
  | SimpleNightshadeTestonly
  | LowerValidatorKickoutPercentForDebugging
  | SingleShardTracking
  | StateWitnessSizeLimit
  | ShuffleShardAssignments
  | PerReceiptHardStorageProofLimit
  | CongestionControl
  | RemoveAccountWithLongStorageKey
  | PartialEncodedStateWitness
  | WitnessTransactionLimits
  | OutgoingReceiptsSizeLimit
  | NoChunkOnlyProducers
  | ChangePartialWitnessDataPartsRequired
  | BiggerCombinedTransactionLimit
  | HigherSendingCost
deriving DecidableEq

/-- Availability of a feature in a build: `true` unless the variant
carries a `#[cfg(feature = ...)]` attribute whose flag is off in the
given configuration. Mirrors the five cfg attributes on the enum. -/
def ProtocolFeature.available (f : ProtocolFeature) (cfg : BuildConfig) : Bool :=
  match f with
  | .FixStakingThreshold => cfg.protocol_feature_fix_staking_threshold
  | .FixContractLoadingCost => cfg.protocol_feature_fix_contract_loading_cost
  | .RejectBlocksWithOutdatedProtocolVersions =>
      cfg.protocol_feature_reject_blocks_with_outdated_protocol_version
  | .NonrefundableStorage => cfg.protocol_feature_nonrefundable_transfer_nep491
  | .BLS12381 => cfg.protocol_feature_bls12381
  | _ => true

/-- The version table `ProtocolFeature::protocol_version`, arm by arm in
the order of the Rust match. -/
def ProtocolFeature.protocol_version : ProtocolFeature → ProtocolVersion
  | .ImplicitAccountCreation => 35
  | .LowerStorageCost => 42
  | .DeleteActionRestriction => 43
  | .FixApplyChunks => 44
  | .RectifyInflation | .AccessKeyNonceRange => 45
  | .AccountVersions
  | .TransactionSizeLimit
  | .FixStorageUsage
  | .CapMaxGasPrice
  | .CountRefundReceiptsInGasLimit
  | .MathExtension => 46
  | .RestoreReceiptsAfterFixApplyChunks => 47
  | .Wasmer2
  | .LowerDataReceiptAndEcrecoverBaseCost
  | .LowerRegularOpCost
  | .SimpleNightshade => 48
  | .LowerRegularOpCost2
  | .LimitContractFunctionsNumber
  | .BlockHeaderV3
  | .AliasValidatorSelectionAlgorithm => 49
  | .SynchronizeBlockChunkProduction
  | .CorrectStackLimit => 50
  | .AccessKeyNonceForImplicitAccounts => 51
  | .IncreaseDeploymentCost
  | .FunctionCallWeight
  | .LimitContractLocals
  | .ChunkNodesCache
  | .LowerStorageKeyLimit => 53
  | .AltBn128 => 55
  | .ChunkOnlyProducers | .MaxKickoutStake => 56
  | .AccountIdInFunctionCallPermission => 57
  | .Ed25519Verify
  | .ZeroBalanceAccount
  | .DelegateAction => 59
  | .ComputeCosts | .FlatStorageReads => 61
  | .PreparationV2 | .NearVmRuntime => 62
  | .BlockHeaderV4 => 63
  | .RestrictTla
  | .TestnetFewerBlockProducers
  | .SimpleNightshadeV2 => 64
  | .SimpleNightshadeV3 => 65
  | .DecreaseFunctionCallBaseCost => 66
  | .YieldExecution => 67
  | .CongestionControl
  | .RemoveAccountWithLongStorageKey => 68
  | .StatelessValidationV0
  | .LowerValidatorKickoutPercentForDebugging
  | .SingleShardTracking
  | .StateWitnessSizeLimit
  | .PerReceiptHardStorageProofLimit
  | .PartialEncodedStateWitness
  | .WitnessTransactionLimits
  | .OutgoingReceiptsSizeLimit
  | .NoChunkOnlyProducers
  | .ChangePartialWitnessDataPartsRequired
  | .BiggerCombinedTransactionLimit
  | .HigherSendingCost => 69
  | .EthImplicitAccounts => 70
  | .SimpleNightshadeTestonly => 100
  | .FixStakingThreshold => 126
  | .FixContractLoadingCost => 129
  | .RejectBlocksWithOutdatedProtocolVersions => 132
  | .NonrefundableStorage => 140
  | .BLS12381 => 141
  | .ShuffleShardAssignments => 143

/-- The feature gate `ProtocolFeature::enabled`:
`protocol_version >= self.protocol_version()`. -/
def ProtocolFeature.enabled (f : ProtocolFeature) (protocol_version : ProtocolVersion) : Bool :=
  decide (protocol_version ≥ f.protocol_version)

/-- Current protocol version used on the mainnet. -/
def STABLE_PROTOCOL_VERSION : ProtocolVersion := 70

/-- Largest protocol version supported by the current binary, chosen by
the channel flags exactly as the cfg! chain in the source. -/
def PROTOCOL_VERSION (cfg : BuildConfig) : ProtocolVersion :=
  if cfg.statelessnet_protocol then
    82
  else if cfg.nightly_protocol then
    143
  else
    STABLE_PROTOCOL_VERSION

/-- Peer connections are rejected when the peer protocol version is lower
than this. A plain constant in the source, not depending on any channel
flag: always derived from the stable baseline. -/
def PEER_MIN_ALLOWED_PROTOCOL_VERSION : ProtocolVersion := STABLE_PROTOCOL_VERSION - 3

/-- Expansion of the checked_feature macro, shape 1 (the literal tag
"stable"): the raw comparison
`ProtocolFeature::$feature.protocol_version() <= $current_protocol_version`,
with no availability gating. -/
def checked_feature_stable (f : ProtocolFeature) (current_protocol_version : ProtocolVersion) :
    Bool :=
  decide (f.protocol_version ≤ current_protocol_version)

/-- Expansion of the checked_feature macro, shape 2 (a named cfg flag):
when the flag is on in the build, the same comparison as shape 1;
when it is off, the constant false branch is compiled instead. The
boolean `flag` stands for `cfg(feature = $feature_name)`. -/
def checked_feature_cfg (flag : Bool) (f : ProtocolFeature)
    (current_protocol_version : ProtocolVersion) : Bool :=
  if flag then decide (f.protocol_version ≤ current_protocol_version) else false

/-- Expansion of the checked_feature macro, shape 4 (two code bodies):
when the flag is on, branch on the shape-2 boolean; when the flag is
off, only the non-feature body is compiled. Shape 3 is shape 4 with an
empty non-feature body, so it is an instance of this definition. -/
def checked_feature_branch {α : Type} (flag : Bool) (f : ProtocolFeature)
    (current_protocol_version : ProtocolVersion) (feature_block non_feature_block : α) : α :=
  if flag then
    if checked_feature_cfg flag f current_protocol_version then feature_block
    else non_feature_block
  else
    non_feature_block

/-- The constructors of the Rust enum `ProtocolFeature` in their exact
declaration order (source lines 13 to 178). -/
def declOrder : List ProtocolFeature :=
  [.ImplicitAccountCreation, .RectifyInflation, .AccessKeyNonceRange, .FixApplyChunks,
   .LowerStorageCost, .DeleteActionRestriction, .AccountVersions, .TransactionSizeLimit,
   .FixStorageUsage, .CapMaxGasPrice, .CountRefundReceiptsInGasLimit, .MathExtension,
   .RestoreReceiptsAfterFixApplyChunks, .Wasmer2, .SimpleNightshade,
   .LowerDataReceiptAndEcrecoverBaseCost, .LowerRegularOpCost, .LowerRegularOpCost2,
   .LimitContractFunctionsNumber, .BlockHeaderV3, .AliasValidatorSelectionAlgorithm,
   .SynchronizeBlockChunkProduction, .CorrectStackLimit, .AccessKeyNonceForImplicitAccounts,
   .IncreaseDeploymentCost, .FunctionCallWeight, .LimitContractLocals, .ChunkNodesCache,
   .LowerStorageKeyLimit, .AltBn128, .ChunkOnlyProducers, .MaxKickoutStake,
   .AccountIdInFunctionCallPermission, .ZeroBalanceAccount, .DelegateAction, .Ed25519Verify,
   .ComputeCosts, .DecreaseFunctionCallBaseCost, .FlatStorageReads, .PreparationV2,
   .NearVmRuntime, .BlockHeaderV4, .SimpleNightshadeV2, .SimpleNightshadeV3,
   .FixStakingThreshold, .FixContractLoadingCost, .RejectBlocksWithOutdatedProtocolVersions,
   .NonrefundableStorage, .BLS12381, .RestrictTla, .TestnetFewerBlockProducers,
   .StatelessValidationV0, .EthImplicitAccounts, .YieldExecution, .SimpleNightshadeTestonly,
   .LowerValidatorKickoutPercentForDebugging, .SingleShardTracking, .StateWitnessSizeLimit,
   .ShuffleShardAssignments, .PerReceiptHardStorageProofLimit, .CongestionControl,
   .RemoveAccountWithLongStorageKey, .PartialEncodedStateWitness, .WitnessTransactionLimits,
   .OutgoingReceiptsSizeLimit, .NoChunkOnlyProducers, .ChangePartialWitnessDataPartsRequired,
   .BiggerCombinedTransactionLimit, .HigherSendingCost]

/-- Position of a feature in the enum declaration order. -/
def declIdx (f : ProtocolFeature) : Nat :=
  declOrder.indexOf f

/-- The features in the order their arms appear in the match of
`ProtocolFeature::protocol_version` (source lines 185 to 265), i.e. in
the historical order of the version table itself. -/
def tableOrder : List ProtocolFeature :=
  [.ImplicitAccountCreation, .LowerStorageCost, .DeleteActionRestriction, .FixApplyChunks,
   .RectifyInflation, .AccessKeyNonceRange, .AccountVersions, .TransactionSizeLimit,
   .FixStorageUsage, .CapMaxGasPrice, .CountRefundReceiptsInGasLimit, .MathExtension,
   .RestoreReceiptsAfterFixApplyChunks, .Wasmer2, .LowerDataReceiptAndEcrecoverBaseCost,
   .LowerRegularOpCost, .SimpleNightshade, .LowerRegularOpCost2, .LimitContractFunctionsNumber,
   .BlockHeaderV3, .AliasValidatorSelectionAlgorithm, .SynchronizeBlockChunkProduction,
   .CorrectStackLimit, .AccessKeyNonceForImplicitAccounts, .IncreaseDeploymentCost,
   .FunctionCallWeight, .LimitContractLocals, .ChunkNodesCache, .LowerStorageKeyLimit,
   .AltBn128, .ChunkOnlyProducers, .MaxKickoutStake, .AccountIdInFunctionCallPermission,
   .Ed25519Verify, .ZeroBalanceAccount, .DelegateAction, .ComputeCosts, .FlatStorageReads,
   .PreparationV2, .NearVmRuntime, .BlockHeaderV4, .RestrictTla, .TestnetFewerBlockProducers,
   .SimpleNightshadeV2, .SimpleNightshadeV3, .DecreaseFunctionCallBaseCost, .YieldExecution,
   .CongestionControl, .RemoveAccountWithLongStorageKey, .StatelessValidationV0,
   .LowerValidatorKickoutPercentForDebugging, .SingleShardTracking, .StateWitnessSizeLimit,
   .PerReceiptHardStorageProofLimit, .PartialEncodedStateWitness, .WitnessTransactionLimits,
   .OutgoingReceiptsSizeLimit, .NoChunkOnlyProducers, .ChangePartialWitnessDataPartsRequired,
   .BiggerCombinedTransactionLimit, .HigherSendingCost, .EthImplicitAccounts,
   .SimpleNightshadeTestonly, .FixStakingThreshold, .FixContractLoadingCost,
   .RejectBlocksWithOutdatedProtocolVersions, .NonrefundableStorage, .BLS12381,
   .ShuffleShardAssignments]

/-- Whether a feature variant carries a cfg attribute in the source
(i.e. exists only when its named build flag is on). -/
def isCfgGated (f : ProtocolFeature) : Bool :=
  match f with
  | .FixStakingThreshold
  | .FixContractLoadingCost
  | .RejectBlocksWithOutdatedProtocolVersions
  | .NonrefundableStorage
  | .BLS12381 => true
  | _ => false

/-- The stable-channel build: no cfg flags on. -/
def stableBuild : BuildConfig :=
  ⟨false, false, false, false, false, false, false⟩

/-- The nightly build: every protocol_feature flag on, nightly_protocol
on, statelessnet_protocol off. -/
def nightlyBuild : BuildConfig :=
  ⟨true, true, true, true, true, false, true⟩

/-- A configuration with two channel switches active at once. -/
def multiChannelBuild : BuildConfig :=
  ⟨false, false, false, false, false, true, true⟩

/-- The statelessnet build: statelessnet_protocol on, everything else off. -/
def statelessnetBuild : BuildConfig :=
  ⟨false, false, false, false, false, true, false⟩

/-- Claim C1: for every feature available in the active build and every
protocol version v, the gate enabled(f, v) is true exactly when
v >= versionOf(f); at versionOf(f) - 1 it is false and at versionOf(f)
it is true. Purity holds by construction: enabled is a function of its
two arguments only. -/
theorem c1_feature_gate_correct (cfg : BuildConfig) (f : ProtocolFeature)
    (hf : f.available cfg = true) (v : ProtocolVersion) :
    (f.enabled v = true ↔ v ≥ f.protocol_version) ∧
    f.enabled (f.protocol_version - 1) = false ∧
    f.enabled f.protocol_version = true := by
  refine ⟨?_, ?_, ?_⟩
  · simp [ProtocolFeature.enabled]
  · cases f <;> decide
  · cases f <;> decide

/-- Witness for C1 at the stable build, ImplicitAccountCreation, v = 45. -/
theorem c1_feature_gate_correct_witness :
    ProtocolFeature.available ProtocolFeature.ImplicitAccountCreation stableBuild = true ∧
    ((ProtocolFeature.enabled ProtocolFeature.ImplicitAccountCreation 45 = true ↔
        45 ≥ ProtocolFeature.protocol_version ProtocolFeature.ImplicitAccountCreation) ∧
      ProtocolFeature.enabled ProtocolFeature.ImplicitAccountCreation
        (ProtocolFeature.protocol_version ProtocolFeature.ImplicitAccountCreation - 1) = false ∧
      ProtocolFeature.enabled ProtocolFeature.ImplicitAccountCreation
        (ProtocolFeature.protocol_version ProtocolFeature.ImplicitAccountCreation) = true) :=
  ⟨by decide,
   c1_feature_gate_correct stableBuild ProtocolFeature.ImplicitAccountCreation (by decide) 45⟩

/-- Claim C2: the peer floor equals the stable maximum minus exactly 3,
concretely 67; a peer advertising 66 is below the floor and one
advertising 67 is not. The constant takes no channel flag as input, so
it has this value in every build channel. -/
theorem c2_peer_floor :
    PEER_MIN_ALLOWED_PROTOCOL_VERSION = STABLE_PROTOCOL_VERSION - 3 ∧
    PEER_MIN_ALLOWED_PROTOCOL_VERSION = 67 ∧
    66 < PEER_MIN_ALLOWED_PROTOCOL_VERSION ∧
    ¬ 67 < PEER_MIN_ALLOWED_PROTOCOL_VERSION := by
  decide

/-- Claim C3 counterexample: RectifyInflation is declared before
FixApplyChunks in the enum (indices 1 and 3), both are stable-channel
features, yet versionOf(RectifyInflation) = 45 > 44 =
versionOf(FixApplyChunks): the version table is not monotone with
respect to enum declaration order. -/
theorem c3_counterexample :
    declIdx ProtocolFeature.RectifyInflation < declIdx ProtocolFeature.FixApplyChunks ∧
    ProtocolFeature.available ProtocolFeature.RectifyInflation stableBuild = true ∧
    ProtocolFeature.available ProtocolFeature.FixApplyChunks stableBuild = true ∧
    ProtocolFeature.protocol_version ProtocolFeature.FixApplyChunks <
      ProtocolFeature.protocol_version ProtocolFeature.RectifyInflation := by
  decide

/-- Claim C3 amended: the version table is monotone with respect to the
order of its own arms (the historical order of the table), not with
respect to the enum declaration order: listing the features in match
arm order, the assigned versions are nondecreasing, and that listing
covers the entire catalog. -/
theorem c3_table_monotone :
    List.Sorted (fun a b => a ≤ b) (tableOrder.map ProtocolFeature.protocol_version) ∧
    ∀ f : ProtocolFeature, f ∈ tableOrder := by
  constructor
  · decide
  · intro f; cases f <;> decide

/-- Claim C4 counterexample: ShuffleShardAssignments is compiled into
every build (no cfg attribute), yet its version 143 exceeds the
sentinel versionOf(SimpleNightshadeTestonly) = 100, so the sentinel is
not strictly greater than the version of every other feature. -/
theorem c4_counterexample :
    ProtocolFeature.available ProtocolFeature.ShuffleShardAssignments stableBuild = true ∧
    ProtocolFeature.available ProtocolFeature.ShuffleShardAssignments nightlyBuild = true ∧
    ¬ ProtocolFeature.protocol_version ProtocolFeature.SimpleNightshadeTestonly >
        ProtocolFeature.protocol_version ProtocolFeature.ShuffleShardAssignments := by
  decide

/-- Claim C4 amended: the sentinel version 100 never equals the version
of any other feature, and every other feature sits either strictly
below it (the stable range, at most 70) or in the high range at or
above 126 (the cfg-gated features and ShuffleShardAssignments), so the
sentinel exceeds every stable-released version but not the high-range
ones. -/
theorem c4_sentinel_isolation (f : ProtocolFeature)
    (h : f ≠ ProtocolFeature.SimpleNightshadeTestonly) :
    f.protocol_version ≠ 100 ∧
    (f.protocol_version < 100 ∨ 126 ≤ f.protocol_version) := by
  cases f <;> first | exact absurd rfl h | decide

/-- Witness for C4 amended at ShuffleShardAssignments. -/
theorem c4_sentinel_isolation_witness :
    ProtocolFeature.protocol_version ProtocolFeature.ShuffleShardAssignments ≠ 100 ∧
    (ProtocolFeature.protocol_version ProtocolFeature.ShuffleShardAssignments < 100 ∨
      126 ≤ ProtocolFeature.protocol_version ProtocolFeature.ShuffleShardAssignments) :=
  c4_sentinel_isolation ProtocolFeature.ShuffleShardAssignments (by decide)

/-- Claim C5: when the nightly channel is selected (nightly flag on,
statelessnet flag off), PROTOCOL_VERSION is 143, it is at least the
version of every feature in the table, and it is attained by a feature
compiled into the nightly build, so it equals the maximum version
across all features including experimental ones. -/
theorem c5_nightly_superset (cfg : BuildConfig)
    (hn : cfg.nightly_protocol = true) (hs : cfg.statelessnet_protocol = false) :
    PROTOCOL_VERSION cfg = 143 ∧
    (∀ f : ProtocolFeature, f.protocol_version ≤ PROTOCOL_VERSION cfg) ∧
    (∃ f : ProtocolFeature, f.available cfg = true ∧
      f.protocol_version = PROTOCOL_VERSION cfg) := by
  have h : PROTOCOL_VERSION cfg = 143 := by simp [PROTOCOL_VERSION, hn, hs]
  refine ⟨h, ?_, ?_⟩
  · intro f
    rw [h]
    cases f <;> decide
  · exact ⟨ProtocolFeature.ShuffleShardAssignments, rfl, by rw [h]; decide⟩

/-- Witness for C5 at the nightly build. -/
theorem c5_nightly_superset_witness :
    PROTOCOL_VERSION nightlyBuild = 143 ∧
    (∀ f : ProtocolFeature, f.protocol_version ≤ PROTOCOL_VERSION nightlyBuild) ∧
    (∃ f : ProtocolFeature, f.available nightlyBuild = true ∧
      f.protocol_version = PROTOCOL_VERSION nightlyBuild) :=
  c5_nightly_superset nightlyBuild rfl rfl

/-- Claim C6: the unconditional "stable" shape of checked_feature, the
comparison versionOf(f) <= v, returns exactly the same boolean as the
gate enabled(f, v), which is v >= versionOf(f). -/
theorem c6_stable_form_equals_gate (f : ProtocolFeature) (v : ProtocolVersion) :
    checked_feature_stable f v = f.enabled v :=
  rfl

/-- Claim C7: the cfg-gated shape of checked_feature evaluates to false
for every version when the named flag is off in the build, and to
enabled(f, v) when it is on; the branch shape takes the non-feature
body when the flag is off, and branches on the gate when it is on. -/
theorem c7_cfg_form {α : Type} (f : ProtocolFeature) (v : ProtocolVersion) (a b : α) :
    checked_feature_cfg false f v = false ∧
    checked_feature_cfg true f v = f.enabled v ∧
    checked_feature_branch false f v a b = b ∧
    checked_feature_branch true f v a b = (if f.enabled v then a else b) :=
  ⟨rfl, rfl, rfl, rfl⟩

/-- Claim C8 counterexample: a configuration with both the statelessnet
and the nightly channel switches active is representable and
PROTOCOL_VERSION is defined there, evaluating to 82: the source places
no build-time exclusion on channel flags, the cfg! chain simply gives
statelessnet precedence. -/
theorem c8_counterexample :
    multiChannelBuild.statelessnet_protocol = true ∧
    multiChannelBuild.nightly_protocol = true ∧
    PROTOCOL_VERSION multiChannelBuild = 82 := by
  decide

/-- Claim C8 amended: selecting several channel switches at once is not
a build-time error in this module; PROTOCOL_VERSION stays defined and
the statelessnet switch takes precedence, yielding 82 whenever it is
on, whatever the nightly switch says. -/
theorem c8_statelessnet_precedence (cfg : BuildConfig)
    (h : cfg.statelessnet_protocol = true) :
    PROTOCOL_VERSION cfg = 82 := by
  simp [PROTOCOL_VERSION, h]

/-- Witness for C8 amended at the two-channel configuration. -/
theorem c8_statelessnet_precedence_witness :
    PROTOCOL_VERSION multiChannelBuild = 82 :=
  c8_statelessnet_precedence multiChannelBuild rfl

/-- Claim C9: in the stable build PROTOCOL_VERSION is 70, while
SimpleNightshadeTestonly (version 100) and ShuffleShardAssignments
(version 143) are compiled into every build yet not enabled at 70. -/
theorem c9_future_features_in_stable :
    PROTOCOL_VERSION stableBuild = 70 ∧
    (∀ cfg : BuildConfig,
      ProtocolFeature.available ProtocolFeature.SimpleNightshadeTestonly cfg = true ∧
      ProtocolFeature.available ProtocolFeature.ShuffleShardAssignments cfg = true) ∧
    ProtocolFeature.protocol_version ProtocolFeature.SimpleNightshadeTestonly = 100 ∧
    ProtocolFeature.protocol_version ProtocolFeature.ShuffleShardAssignments = 143 ∧
    ProtocolFeature.enabled ProtocolFeature.SimpleNightshadeTestonly
      (PROTOCOL_VERSION stableBuild) = false ∧
    ProtocolFeature.enabled ProtocolFeature.ShuffleShardAssignments
      (PROTOCOL_VERSION stableBuild) = false := by
  exact ⟨rfl, fun cfg => ⟨rfl, rfl⟩, rfl, rfl, by decide, by decide⟩

/-- Claim C10: every cfg-gated feature has a version at least 126,
strictly above both the stable maximum 70 and the statelessnet maximum
82, so at any negotiated version at most the statelessnet maximum the
gate answers false for every cfg-gated feature. -/
theorem c10_cfg_gated_high (f : ProtocolFeature) (hf : isCfgGated f = true)
    (v : ProtocolVersion) (hv : v ≤ PROTOCOL_VERSION statelessnetBuild) :
    126 ≤ f.protocol_version ∧
    PROTOCOL_VERSION stableBuild < f.protocol_version ∧
    PROTOCOL_VERSION statelessnetBuild < f.protocol_version ∧
    f.enabled v = false := by
  have hv82 : v ≤ 82 := hv
  cases f <;> first
    | exact absurd hf (by decide)
    | refine ⟨by decide, by decide, by decide, ?_⟩
      simp only [ProtocolFeature.enabled, ProtocolFeature.protocol_version,
        decide_eq_false_iff_not, ge_iff_le, not_le]
      exact lt_of_le_of_lt hv82 (by decide)

/-- Witness for C10 at FixStakingThreshold and v = 82. -/
theorem c10_cfg_gated_high_witness :
    126 ≤ ProtocolFeature.protocol_version ProtocolFeature.FixStakingThreshold ∧
    PROTOCOL_VERSION stableBuild <
      ProtocolFeature.protocol_version ProtocolFeature.FixStakingThreshold ∧
    PROTOCOL_VERSION statelessnetBuild <
      ProtocolFeature.protocol_version ProtocolFeature.FixStakingThreshold ∧
    ProtocolFeature.enabled ProtocolFeature.FixStakingThreshold 82 = false :=
  c10_cfg_gated_high ProtocolFeature.FixStakingThreshold (by decide) 82 (by decide)
